import Mathlib

/-
Verification development for the schismrs bctides core: a shallow embedding of
the tidal harmonic factor engine (src/bctides/src/tidefac.rs), the constituent
selection logic (tides.rs), the boundary-type code resolution and constituent
aggregation (bctides.rs, bctypes.rs), translated from the Rust source.
Machine floats (f64) are modelled as real numbers (exact rationals where the
source only does rational arithmetic); Rust's `%` on f64 is modelled by
`rustRem` (remainder with the sign of the dividend).
-/

namespace Schismrs

/-! ## Calendar model

`chrono::DateTime<Utc>` is consumed by the engine only through `year()`,
`ordinal()` (1-based day of year) and `hour()`; `chrono::Duration` only through
`num_seconds()`.  We package exactly those observations as a `Clock`.
`dayOfYear` recovers chrono's `ordinal()` from a (month, day) pair. -/

def monthLengths (leap : Bool) : List ℕ :=
  [31, if leap then 29 else 28, 31, 30, 31, 30, 31, 31, 30, 31, 30, 31]

def dayOfYear (leap : Bool) (month day : ℕ) : ℕ :=
  ((monthLengths leap).take (month - 1)).sum + day

structure Clock where
  year : ℤ
  ordinal : ℕ
  hour : ℕ
  durSeconds : ℤ
deriving DecidableEq

/-- The `Tidefac` struct of tidefac.rs: a start date, a run duration and a
constituent name. -/
structure Tidefac where
  clock : Clock
  constituent : String
deriving DecidableEq

/-- Rust `s.strip_prefix('_').unwrap_or(s)`: drop one leading underscore. -/
def stripUnderscore (s : String) : String :=
  match s.data with
  | c :: rest => if c = '_' then String.mk rest else s
  | [] => s

/-- The `tidefac` constructor function of tidefac.rs: it stores the
constituent name with a single leading underscore stripped. -/
def tidefac (ck : Clock) (constituent : String) : Tidefac :=
  { clock := ck, constituent := stripUnderscore constituent }

/-! ## ConstituentCatalog: the three static lookup tables of tidefac.rs.
LinkedHashMap lookups over distinct keys are modelled by association lists. -/

def TIDAL_SPECIES_TYPE_MAP : List (String × ℕ) :=
  [("M2", 2), ("S2", 2), ("N2", 2), ("K2", 2),
   ("K1", 1), ("O1", 1), ("P1", 1), ("Q1", 1), ("Z0", 0)]

def TIDAL_POTENTIAL_AMPLITUDES_MAP : List (String × ℚ) :=
  [("M2", 0.242334), ("S2", 0.112841), ("N2", 0.046398), ("K2", 0.030704),
   ("K1", 0.141565), ("O1", 0.100514), ("P1", 0.046843), ("Q1", 0.019256),
   ("Z0", 0)]

def ORBITAL_FREQUENCIES : List (String × ℚ) :=
  [("M4", 0.0002810378050173),
   ("M6", 0.0004215567080107),
   ("MK3", 0.0002134400613513),
   ("S4", 0.0002908882086657),
   ("MN4", 0.0002783986019952),
   ("S6", 0.0004363323129986),
   ("M3", 0.0002107783537630),
   ("2MK3", 0.0002081166466594),
   ("M8", 0.0005620756090649),
   ("MS4", 0.0002859630068415),
   ("M2", 0.0001405189025086),
   ("S2", 0.0001454441043329),
   ("N2", 0.0001378796994865),
   ("Nu2", 0.0001382329037065),
   ("MU2", 0.0001355937006844),
   ("2N2", 0.0001352404964644),
   ("lambda2", 0.0001428049013108),
   ("T2", 0.0001452450073529),
   ("R2", 0.0001456432013128),
   ("2SM2", 0.0001503693061571),
   ("L2", 0.0001431581055307),
   ("K2", 0.0001458423172006),
   ("K1", 0.0000729211583579),
   ("O1", 0.0000675977441508),
   ("OO1", 0.0000782445730498),
   ("S1", 0.0000727220521664),
   ("M1", 0.0000702594512543),
   ("J1", 0.0000755603613800),
   ("RHO", 0.0000653117453487),
   ("Q1", 0.0000649585411287),
   ("2Q1", 0.0000623193381066),
   ("P1", 0.0000725229459750),
   ("Mm", 0.0000026392030221),
   ("Ssa", 0.0000003982128677),
   ("Sa", 0.0000001991061914),
   ("Msf", 0.0000049252018242),
   ("Mf", 0.0000053234146919),
   ("Z0", 0.0)]

/-- `Tidefac::tidal_species_type`: a table lookup; the source panics with a
message naming the constituent and the table on a missing key, modelled as
`Except.error` of that message. -/
def tidal_species_type (td : Tidefac) : Except String ℕ :=
  match TIDAL_SPECIES_TYPE_MAP.lookup td.constituent with
  | some v => Except.ok v
  | none =>
    Except.error ("Failed to get tidal_species_type for constituent " ++ td.constituent)

/-- `Tidefac::tidal_potential_amplitude`: table lookup, panic message on a
missing key modelled as `Except.error`. -/
def tidal_potential_amplitude (td : Tidefac) : Except String ℚ :=
  match TIDAL_POTENTIAL_AMPLITUDES_MAP.lookup td.constituent with
  | some v => Except.ok v
  | none =>
    Except.error ("Failed to get tidal_potential_amplitude for constituent " ++ td.constituent)

/-- `Tidefac::orbital_frequency`: table lookup, panic message (with the
source's spelling) on a missing key modelled as `Except.error`. -/
def orbital_frequency (td : Tidefac) : Except String ℚ :=
  match ORBITAL_FREQUENCIES.lookup td.constituent with
  | some v => Except.ok v
  | none =>
    Except.error ("Failed to fetch orbital frequency for contituent: " ++ td.constituent)

/-! ## TidalFactorEngine: the astronomical formulas of tidefac.rs.

The f64 computations are modelled over the real numbers.  Every method below
reads only the start date and the run duration of a `Tidefac`, so each is
defined as a function of `Clock`. -/

/-- `DDAY`: day of year adjusted by the leap years since 1901; Rust i32
division truncates toward zero, modelled by `Int.tdiv`. -/
def DDAY (ck : Clock) : ℤ :=
  (ck.ordinal : ℤ) + (ck.year - 1901 - 1).tdiv 4 - 1

noncomputable section

/-- Rust `f64::atan2` (self = y, other = x) on non-NaN inputs. -/
def atan2 (y x : ℝ) : ℝ :=
  if 0 < x then Real.arctan (y / x)
  else if x < 0 ∧ 0 ≤ y then Real.arctan (y / x) + Real.pi
  else if x < 0 ∧ y < 0 then Real.arctan (y / x) - Real.pi
  else if x = 0 ∧ 0 < y then Real.pi / 2
  else if x = 0 ∧ y < 0 then -(Real.pi / 2)
  else 0

def deg_to_rad (degrees : ℝ) : ℝ := degrees * (Real.pi / 180)

/-- Rust `f64::to_degrees`. -/
def rad_to_deg (x : ℝ) : ℝ := x * (180 / Real.pi)

def DYR (ck : Clock) : ℝ := (ck.year : ℝ) - 1900

def hour_middle (ck : Clock) : ℝ :=
  (ck.hour : ℝ) + ((ck.durSeconds : ℝ) / 3600) / 2

def get_lunar_node (ck : Clock) : ℝ :=
  259.1560564 - 19.328185764 * DYR ck - 0.0529539336 * (DDAY ck : ℝ)
    - 0.0022064139 * hour_middle ck

def get_lunar_perigee (ck : Clock) : ℝ :=
  334.3837214 + 40.66246584 * DYR ck + 0.111404016 * (DDAY ck : ℝ)
    + 0.004641834 * hour_middle ck

def get_lunar_mean_longitude (ck : Clock) : ℝ :=
  277.0256206 + 129.38482032 * DYR ck + 13.176396768 * (DDAY ck : ℝ)
    + 0.549016532 * (ck.hour : ℝ)

def get_solar_perigee (ck : Clock) : ℝ :=
  281.2208569 + 0.01717836 * DYR ck + 0.000047064 * (DDAY ck : ℝ)
    + 0.000001961 * (ck.hour : ℝ)

def get_solar_mean_longitude (ck : Clock) : ℝ :=
  280.1895014 - 0.238724988 * DYR ck + 0.9856473288 * (DDAY ck : ℝ)
    + 0.0410686387 * (ck.hour : ℝ)

def DN (ck : Clock) : ℝ := get_lunar_node ck

def N (ck : Clock) : ℝ := deg_to_rad (DN ck)

def I (ck : Clock) : ℝ := Real.arccos (0.9136949 - 0.0356926 * Real.cos (N ck))

/-- `NU()`: reproduced exactly as in the source, including the
`sin(I).asin()` composition. -/
def NU (ck : Clock) : ℝ :=
  0.0897056 * Real.sin (N ck) / Real.arcsin (Real.sin (I ck))

def DT (ck : Clock) : ℝ := 180 + (ck.hour : ℝ) * (360 / 24)

def DS (ck : Clock) : ℝ := get_lunar_mean_longitude ck

def DP (ck : Clock) : ℝ := get_lunar_perigee ck

def P (ck : Clock) : ℝ := deg_to_rad (DP ck)

def DH (ck : Clock) : ℝ := get_solar_mean_longitude ck

def DP1 (ck : Clock) : ℝ := get_solar_perigee ck

def DNU (ck : Clock) : ℝ := rad_to_deg (NU ck)

/-- `XI()`: note the source applies `atan` to `tan(0.64412 * N / 2)`. -/
def XI (ck : Clock) : ℝ :=
  N ck - 2 * Real.arctan (Real.tan (0.64412 * N ck / 2)) - NU ck

def DXI (ck : Clock) : ℝ := rad_to_deg (XI ck)

def NUP (ck : Clock) : ℝ :=
  Real.arctan (Real.sin (NU ck) / (Real.cos (NU ck) + 0.334766 / Real.sin (2 * I ck)))

def DNUP (ck : Clock) : ℝ := rad_to_deg (NUP ck)

def DPC (ck : Clock) : ℝ := DP ck - DXI ck

def PC (ck : Clock) : ℝ := deg_to_rad (DPC ck)

/-- `R()`: reproduced exactly as in the source, where `atan` is applied to
`sin(2 PC)` before the division. -/
def R (ck : Clock) : ℝ :=
  Real.arctan (Real.sin (2 * PC ck)) /
    ((1 / 6) * (Real.tan (0.5 * I ck))⁻¹ ^ 2 - Real.cos (2 * PC ck))

def DR (ck : Clock) : ℝ := rad_to_deg (R ck)

def NUP2 (ck : Clock) : ℝ :=
  Real.arctan (Real.sin (2 * NU ck) /
      (Real.cos (2 * NU ck) + 0.0726184 / Real.sin (I ck) ^ 2)) / 2

def DNUP2 (ck : Clock) : ℝ := rad_to_deg (NUP2 ck)

def Q (ck : Clock) : ℝ :=
  atan2 (5 * Real.cos (I ck) - 1) ((7 * Real.cos (I ck) + 1) * Real.cos (PC ck))
    * Real.sin (PC ck)

def DQ (ck : Clock) : ℝ := rad_to_deg (Q ck)

def EQ73 (ck : Clock) : ℝ := (2 / 3 - Real.sin (I ck) ^ 2) / 0.5021

def EQ74 (ck : Clock) : ℝ := Real.sin (I ck) ^ 2 / 0.1578

def EQ75 (ck : Clock) : ℝ :=
  Real.sin (I ck) * Real.cos (I ck / 2) ^ 2 / 0.37988

def EQ76 (ck : Clock) : ℝ := Real.sin (2 * I ck) / 0.7214

def EQ77 (ck : Clock) : ℝ :=
  Real.sin (I ck) * Real.sin (I ck / 2) ^ 2 / 0.0164

def EQ78 (ck : Clock) : ℝ := Real.cos (I ck / 2) ^ 4 / 0.91544

def EQ149 (ck : Clock) : ℝ := Real.cos (I ck / 2) ^ 6 / 0.8758

def EQ197 (ck : Clock) : ℝ :=
  Real.sqrt (2.310 + 1.435 * Real.cos (2 * (P ck - XI ck)))

def EQ207 (ck : Clock) : ℝ := EQ75 ck * EQ197 ck

def EQ213 (ck : Clock) : ℝ :=
  Real.sqrt (1 - 12 * Real.tan (I ck / 2) ^ 2 * Real.cos (2 * P ck)
    + 36 * Real.tan (I ck / 2) ^ 4)

def EQ215 (ck : Clock) : ℝ := EQ78 ck * EQ213 ck

def EQ227 (ck : Clock) : ℝ :=
  Real.sqrt (0.8965 * Real.sin (2 * I ck) ^ 2
    + 0.6001 * Real.sin (2 * I ck) * Real.cos (NU ck) + 0.1006)

def EQ235 (ck : Clock) : ℝ :=
  0.001 + Real.sqrt (19.0444 * Real.sin (I ck) ^ 4
    + 2.7702 * Real.sin (I ck) ^ 2 * Real.cos (2 * NU ck) + 0.0981)

/-- `Tidefac::nodal_factor`: dispatch on the constituent name; the panic on an
unhandled name is modelled as `Except.error` of the panic message. -/
def nodal_factor (td : Tidefac) : Except String ℝ :=
  match td.constituent with
  | "M2" => Except.ok (EQ78 td.clock)
  | "S2" => Except.ok 1
  | "N2" => Except.ok (EQ78 td.clock)
  | "K1" => Except.ok (EQ227 td.clock)
  | "M4" => Except.ok (EQ78 td.clock ^ 2)
  | "O1" => Except.ok (EQ75 td.clock)
  | "M6" => Except.ok (EQ78 td.clock ^ 3)
  | "MK3" => Except.ok (EQ78 td.clock * EQ227 td.clock)
  | "S4" => Except.ok 1
  | "MN4" => Except.ok (EQ78 td.clock ^ 2)
  | "Nu2" => Except.ok (EQ78 td.clock)
  | "S6" => Except.ok 1
  | "MU2" => Except.ok (EQ78 td.clock)
  | "2N2" => Except.ok (EQ78 td.clock)
  | "OO1" => Except.ok (EQ77 td.clock)
  | "lambda2" => Except.ok (EQ78 td.clock)
  | "S1" => Except.ok 1
  | "M1" => Except.ok (EQ207 td.clock)
  | "J1" => Except.ok (EQ76 td.clock)
  | "Mm" => Except.ok (EQ73 td.clock)
  | "Ssa" => Except.ok 1
  | "Sa" => Except.ok 1
  | "Msf" => Except.ok (EQ78 td.clock)
  | "Mf" => Except.ok (EQ74 td.clock)
  | "RHO" => Except.ok (EQ75 td.clock)
  | "Q1" => Except.ok (EQ75 td.clock)
  | "T2" => Except.ok 1
  | "R2" => Except.ok 1
  | "2Q1" => Except.ok (EQ75 td.clock)
  | "P1" => Except.ok 1
  | "2SM2" => Except.ok (EQ78 td.clock)
  | "M3" => Except.ok (EQ149 td.clock)
  | "L2" => Except.ok (EQ215 td.clock)
  | "2MK3" => Except.ok (EQ227 td.clock * EQ78 td.clock ^ 2)
  | "K2" => Except.ok (EQ235 td.clock)
  | "M8" => Except.ok (EQ78 td.clock ^ 4)
  | "MS4" => Except.ok (EQ78 td.clock)
  | "Z0" => Except.ok 1
  | _ => Except.error ("Unhandled constituent: " ++ td.constituent)

/-- The `match` inside `Tidefac::greenwich_factor` that builds the unreduced
linear combination `result`; the panic on an unrecognized name is modelled as
`Except.error` of the panic message. -/
def greenwich_raw (td : Tidefac) : Except String ℝ :=
  let ck := td.clock
  match td.constituent with
  | "M2" => Except.ok (2 * (DT ck - DS ck + DH ck) + 2 * (DXI ck - DNU ck))
  | "S2" => Except.ok (2 * DT ck)
  | "N2" => Except.ok (2 * (DT ck + DH ck) - 3 * DS ck + DP ck + 2 * (DXI ck - DNU ck))
  | "K1" => Except.ok (DT ck + DH ck - 90 - DNUP ck)
  | "M4" => Except.ok (4 * (DT ck - DS ck + DH ck) + 4 * (DXI ck - DNU ck))
  | "O1" => Except.ok (DT ck - 2 * DS ck + DH ck + 90 + 2 * DXI ck - DNU ck)
  | "M6" => Except.ok (6 * (DT ck - DS ck + DH ck) + 6 * (DXI ck - DNU ck))
  | "MK3" =>
    Except.ok (3 * (DT ck + DH ck) - 2 * DS ck - 90 + 2 * (DXI ck - DNU ck) - DNUP ck)
  | "S4" => Except.ok (4 * DT ck)
  | "MN4" => Except.ok (4 * (DT ck + DH ck) - 5 * DS ck + DP ck + 4 * (DXI ck - DNU ck))
  | "Nu2" =>
    Except.ok (2 * DT ck - 3 * DS ck + 4 * DH ck - DP ck + 2 * (DXI ck - DNU ck))
  | "S6" => Except.ok (6 * DT ck)
  | "MU2" =>
    Except.ok (2 * (DT ck + 2 * (DH ck - DS ck)) + 2 * (DXI ck - DNU ck))
  | "2N2" =>
    Except.ok (2 * (DT ck - 2 * DS ck + DH ck + DP ck) + 2 * (DXI ck - DNU ck))
  | "OO1" => Except.ok (DT ck + 2 * DS ck + DH ck - 90 - 2 * DXI ck - DNU ck)
  | "lambda2" =>
    Except.ok (2 * DT ck - DS ck + DP ck + 180 + 2 * (DXI ck - DNU ck))
  | "S1" => Except.ok (DT ck)
  | "M1" => Except.ok (DT ck - DS ck + DH ck - 90 + DXI ck - DNU ck + DQ ck)
  | "J1" => Except.ok (DT ck + DS ck + DH ck - DP ck - 90 - DNU ck)
  | "Mm" => Except.ok (DS ck - DP ck)
  | "Ssa" => Except.ok (2 * DH ck)
  | "Sa" => Except.ok (DH ck)
  | "Msf" => Except.ok (2 * (DS ck - DH ck))
  | "Mf" => Except.ok (2 * DS ck - 2 * DXI ck)
  | "RHO" =>
    Except.ok (DT ck + 3 * (DH ck - DS ck) - DP ck + 90 + 2 * DXI ck - DNU ck)
  | "Q1" =>
    Except.ok (DT ck - 3 * DS ck + DH ck + DP ck + 90 + 2 * DXI ck - DNU ck)
  | "T2" => Except.ok (2 * DT ck - DH ck + DP1 ck)
  | "R2" => Except.ok (2 * DT ck + DH ck - DP1 ck + 180)
  | "2Q1" =>
    Except.ok (DT ck - 4 * DS ck + DH ck + 2 * DP ck + 90 + 2 * DXI ck - DNU ck)
  | "P1" => Except.ok (DT ck - DH ck + 90)
  | "2SM2" =>
    Except.ok (2 * (DT ck + DS ck - DH ck) + 2 * (DNU ck - DXI ck))
  | "M3" => Except.ok (3 * (DT ck - DS ck + DH ck) + 3 * (DXI ck - DNU ck))
  | "L2" =>
    Except.ok (2 * (DT ck + DH ck) - DS ck - DP ck + 180 + 2 * (DXI ck - DNU ck) - DR ck)
  | "2MK3" =>
    Except.ok (3 * (DT ck + DH ck) - 4 * DS ck + 90 + 4 * (DXI ck - DNU ck) + DNUP ck)
  | "K2" => Except.ok (2 * (DT ck + DH ck) - 2 * DNUP2 ck)
  | "M8" => Except.ok (8 * (DT ck - DS ck + DH ck) + 8 * (DXI ck - DNU ck))
  | "MS4" =>
    Except.ok (2 * (2 * DT ck - DS ck + DH ck) + 2 * (DXI ck - DNU ck))
  | "Z0" => Except.ok 0
  | _ => Except.error ("Unrecognized constituent " ++ td.constituent)

/-- Truncation toward zero, as Rust `f64::trunc`. -/
def truncTowardZero (x : ℝ) : ℤ := if 0 ≤ x then ⌊x⌋ else -⌊-x⌋

/-- Rust `%` on f64: remainder carrying the sign of the dividend. -/
def rustRem (x y : ℝ) : ℝ := x - y * truncTowardZero (x / y)

/-- `Tidefac::greenwich_factor`: the unreduced combination followed by
`result % 360.`. -/
def greenwich_factor (td : Tidefac) : Except String ℝ :=
  (greenwich_raw td).map (fun r => rustRem r 360)

end

/-! ## ConstituentSelection: tides.rs -/

def MAJOR_CONSTITUENTS : List String :=
  ["Q1", "O1", "P1", "K1", "N2", "M2", "S2", "K2"]

def MINOR_CONSTITUENTS : List String :=
  ["Mm", "Mf", "M4", "MN4", "MS4", "2N2", "S1"]

/-- The `ConstituentsConfig` struct generated by `define_constituents_config!`
with fields `Q1, O1, P1, K1, N2, M2, S2, K2, Mm, Mf, M4, MN4, MS4, _2N2, S1`
(in that order), all defaulting to false. -/
structure ConstituentsConfig where
  Q1 : Bool := false
  O1 : Bool := false
  P1 : Bool := false
  K1 : Bool := false
  N2 : Bool := false
  M2 : Bool := false
  S2 : Bool := false
  K2 : Bool := false
  Mm : Bool := false
  Mf : Bool := false
  M4 : Bool := false
  MN4 : Bool := false
  MS4 : Bool := false
  _2N2 : Bool := false
  S1 : Bool := false
deriving DecidableEq

/-- `ConstituentsConfig::default()`: every flag false. -/
def ConstituentsConfig.empty : ConstituentsConfig := {}

/-- `ConstituentsConfig::field_names()`: the macro field order. -/
def ConstituentsConfig.field_names : List String :=
  ["Q1", "O1", "P1", "K1", "N2", "M2", "S2", "K2",
   "Mm", "Mf", "M4", "MN4", "MS4", "_2N2", "S1"]

/-- `ConstituentsConfig::values()` in the same field order. -/
def ConstituentsConfig.values (c : ConstituentsConfig) : List Bool :=
  [c.Q1, c.O1, c.P1, c.K1, c.N2, c.M2, c.S2, c.K2,
   c.Mm, c.Mf, c.M4, c.MN4, c.MS4, c._2N2, c.S1]

/-- `ConstituentsConfig::set_by_name`: a name starting with a digit is
prefixed with an underscore, then matched against the field names.  The
source panics on an unknown adjusted name; that branch (never reached by the
static constituent lists) is modelled as returning the config unchanged. -/
def ConstituentsConfig.set_by_name (c : ConstituentsConfig) (field_name : String)
    (value : Bool) : ConstituentsConfig :=
  let adjusted :=
    match field_name.data with
    | ch :: _ => if ch.isDigit then "_" ++ field_name else field_name
    | [] => field_name
  match adjusted with
  | "Q1" => { c with Q1 := value }
  | "O1" => { c with O1 := value }
  | "P1" => { c with P1 := value }
  | "K1" => { c with K1 := value }
  | "N2" => { c with N2 := value }
  | "M2" => { c with M2 := value }
  | "S2" => { c with S2 := value }
  | "K2" => { c with K2 := value }
  | "Mm" => { c with Mm := value }
  | "Mf" => { c with Mf := value }
  | "M4" => { c with M4 := value }
  | "MN4" => { c with MN4 := value }
  | "MS4" => { c with MS4 := value }
  | "_2N2" => { c with _2N2 := value }
  | "S1" => { c with S1 := value }
  | _ => c

/-- `ConstituentsConfig::all()`: enable the major then the minor list. -/
def ConstituentsConfig.all : ConstituentsConfig :=
  MINOR_CONSTITUENTS.foldl (fun c n => c.set_by_name n true)
    (MAJOR_CONSTITUENTS.foldl (fun c n => c.set_by_name n true) ConstituentsConfig.empty)

/-- `ConstituentsConfig::major()`. -/
def ConstituentsConfig.major : ConstituentsConfig :=
  MAJOR_CONSTITUENTS.foldl (fun c n => c.set_by_name n true) ConstituentsConfig.empty

/-- `ConstituentsConfig::minor()`. -/
def ConstituentsConfig.minor : ConstituentsConfig :=
  MINOR_CONSTITUENTS.foldl (fun c n => c.set_by_name n true) ConstituentsConfig.empty

/-- An insertion-order-preserving set insertion: `LinkedHashSet::insert` (and
`insert_if_absent`) keep the first-seen position of an element, modelled on
lists as appending only when absent. -/
def insertIfAbsent (s : List String) (x : String) : List String :=
  if s.contains x then s else s ++ [x]

/-- `get_active_potential_constituents`: flags that are set AND belong to the
static major list, in field order. -/
def ConstituentsConfig.get_active_potential_constituents
    (c : ConstituentsConfig) : List String :=
  (ConstituentsConfig.field_names.zip c.values).foldl
    (fun s p =>
      if p.2 = true then
        if MAJOR_CONSTITUENTS.contains p.1 then insertIfAbsent s p.1 else s
      else s) []

/-- `get_active_forcing_constituents`: every set flag, in field order. -/
def ConstituentsConfig.get_active_forcing_constituents
    (c : ConstituentsConfig) : List String :=
  (ConstituentsConfig.field_names.zip c.values).foldl
    (fun s p => if p.2 = true then insertIfAbsent s p.1 else s) []

inductive TidalDatabase
  | TPXO
  | HAMTIDE
  | FES
deriving DecidableEq

inductive TimeSeriesDatabase
  | HYCOM
deriving DecidableEq

structure SpaceVaryingTimeSeriesConfig where
  database : TimeSeriesDatabase
deriving DecidableEq

structure TidesConfig where
  constituents : ConstituentsConfig
  database : TidalDatabase
deriving DecidableEq

/-! ## Bctype codes: bctypes.rs

The `BTreeMap<DateTime<Utc>, f64>` payloads of the `UniformTimeSeries`-style
variants are never inspected by the logic under verification; their time keys
are modelled as integer timestamps. -/

def TimeSeriesMap : Type := List (ℤ × ℝ)

inductive ElevationConfig
  | UniformTimeSeries (ts : TimeSeriesMap)
  | ConstantValue (v : ℝ)
  | Tides (config : TidesConfig)
  | SpaceVaryingTimeSeries (config : SpaceVaryingTimeSeriesConfig)
  | TidesAndSpaceVaryingTimeSeries (tides : TidesConfig)
      (time_series : SpaceVaryingTimeSeriesConfig)
  | EqualToZero

inductive VelocityConfig
  | UniformTimeSeries (ts : TimeSeriesMap)
  | ConstantValue (v : ℝ)
  | Tides (config : TidesConfig)
  | SpaceVaryingTimeSeries (config : SpaceVaryingTimeSeriesConfig)
  | TidesAndSpaceVaryingTimeSeries (tides : TidesConfig)
      (time_series : SpaceVaryingTimeSeriesConfig)
  | Flather

inductive TemperatureConfig
  | RelaxToUniformTimeSeries (ts : TimeSeriesMap)
  | RelaxToConstantValue (v : ℝ)
  | RelaxToInitialConditions
  | RelaxToSpaceVaryingTimeSeries (config : SpaceVaryingTimeSeriesConfig)

inductive SalinityConfig
  | RelaxToUniformTimeSeries (ts : TimeSeriesMap)
  | RelaxToConstantValue (v : ℝ)
  | RelaxToInitialConditions
  | RelaxToSpaceVaryingTimeSeries (config : SpaceVaryingTimeSeriesConfig)

/-- `impl Bctype for ElevationConfig` (i8 codes, modelled in ℤ). -/
def ElevationConfig.ibtype : ElevationConfig → ℤ
  | .UniformTimeSeries _ => 1
  | .ConstantValue _ => 2
  | .Tides _ => 3
  | .SpaceVaryingTimeSeries _ => 4
  | .TidesAndSpaceVaryingTimeSeries _ _ => 5
  | .EqualToZero => -1

/-- `impl Bctype for VelocityConfig`. -/
def VelocityConfig.ibtype : VelocityConfig → ℤ
  | .UniformTimeSeries _ => 1
  | .ConstantValue _ => 2
  | .Tides _ => 3
  | .SpaceVaryingTimeSeries _ => 4
  | .TidesAndSpaceVaryingTimeSeries _ _ => 5
  | .Flather => -1

/-- `impl Bctype for TemperatureConfig`. -/
def TemperatureConfig.ibtype : TemperatureConfig → ℤ
  | .RelaxToUniformTimeSeries _ => 1
  | .RelaxToConstantValue _ => 2
  | .RelaxToInitialConditions => 3
  | .RelaxToSpaceVaryingTimeSeries _ => 4

/-- `impl Bctype for SalinityConfig`. -/
def SalinityConfig.ibtype : SalinityConfig → ℤ
  | .RelaxToUniformTimeSeries _ => 1
  | .RelaxToConstantValue _ => 2
  | .RelaxToInitialConditions => 3
  | .RelaxToSpaceVaryingTimeSeries _ => 4

/-! ## BoundaryForcingAggregator: bctides.rs

A `BTreeMap<u32, V>` is modelled as an association list in strictly ascending
key order, which is exactly the order `values()` / `iter()` traverse. -/

def BMap (α : Type) : Type := List (ℕ × α)

def bmapValues {α : Type} (m : BMap α) : List α := m.map (fun p => p.2)

/-- `contains_key` followed by `get(..).unwrap()`, as one lookup. -/
def bmapGet {α : Type} (m : BMap α) (k : ℕ) : Option α := List.lookup k m

/-- The external mesh service: only the ordered open-boundary node-id lists
are consumed. -/
structure Hgrid where
  nodesIds : List (List ℕ)

structure BoundaryForcingConfig where
  hgrid : Hgrid
  elevation : Option (BMap ElevationConfig)
  velocity : Option (BMap VelocityConfig)
  temperature : Option (BMap TemperatureConfig)
  salinity : Option (BMap SalinityConfig)

/-- `Bctides::get_bctypes_vec`: one block per variable kind in the order
elevation, velocity, temperature, salinity.  A `None` mapping pushes code 0;
a `Some` mapping pushes the config's `ibtype()` when the key is present and
pushes nothing at all when it is absent. -/
def get_bctypes_vec (bfc : BoundaryForcingConfig) (this_bnd_key : ℕ) : List ℤ :=
  (match bfc.elevation with
   | some conf =>
     match bmapGet conf this_bnd_key with
     | some c => [c.ibtype]
     | none => []
   | none => [0]) ++
  (match bfc.velocity with
   | some conf =>
     match bmapGet conf this_bnd_key with
     | some c => [c.ibtype]
     | none => []
   | none => [0]) ++
  (match bfc.temperature with
   | some conf =>
     match bmapGet conf this_bnd_key with
     | some c => [c.ibtype]
     | none => []
   | none => [0]) ++
  (match bfc.salinity with
   | some conf =>
     match bmapGet conf this_bnd_key with
     | some c => [c.ibtype]
     | none => []
   | none => [0])

/-- One elevation entry's contribution to the forcing set (the inner loop of
`get_active_forcing_constituents_set`). -/
def elevationForcingContrib (s : List String) : ElevationConfig → List String
  | .TidesAndSpaceVaryingTimeSeries tides _ =>
    (tides.constituents.get_active_forcing_constituents).foldl insertIfAbsent s
  | .Tides config =>
    (config.constituents.get_active_forcing_constituents).foldl insertIfAbsent s
  | _ => s

def velocityForcingContrib (s : List String) : VelocityConfig → List String
  | .TidesAndSpaceVaryingTimeSeries tides _ =>
    (tides.constituents.get_active_forcing_constituents).foldl insertIfAbsent s
  | .Tides config =>
    (config.constituents.get_active_forcing_constituents).foldl insertIfAbsent s
  | _ => s

def elevationPotentialContrib (s : List String) : ElevationConfig → List String
  | .TidesAndSpaceVaryingTimeSeries tides _ =>
    (tides.constituents.get_active_potential_constituents).foldl insertIfAbsent s
  | .Tides config =>
    (config.constituents.get_active_potential_constituents).foldl insertIfAbsent s
  | _ => s

def velocityPotentialContrib (s : List String) : VelocityConfig → List String
  | .TidesAndSpaceVaryingTimeSeries tides _ =>
    (tides.constituents.get_active_potential_constituents).foldl insertIfAbsent s
  | .Tides config =>
    (config.constituents.get_active_potential_constituents).foldl insertIfAbsent s
  | _ => s

/-- `BoundaryForcingConfig::get_active_forcing_constituents_set`: the whole
elevation mapping is traversed first, then the whole velocity mapping. -/
def get_active_forcing_constituents_set (bfc : BoundaryForcingConfig) : List String :=
  let s :=
    match bfc.elevation with
    | some config => (bmapValues config).foldl elevationForcingContrib []
    | none => []
  match bfc.velocity with
  | some config => (bmapValues config).foldl velocityForcingContrib s
  | none => s

/-- `BoundaryForcingConfig::get_active_potential_constituents_set`. -/
def get_active_potential_constituents_set (bfc : BoundaryForcingConfig) : List String :=
  let s :=
    match bfc.elevation with
    | some config => (bmapValues config).foldl elevationPotentialContrib []
    | none => []
  match bfc.velocity with
  | some config => (bmapValues config).foldl velocityPotentialContrib s
  | none => s

/-- `Bctides::get_bctypes_line`: node count followed by the type codes,
space-separated. -/
def get_bctypes_line (this_nodes : List ℕ) (bctypes_vec : List ℤ) : String :=
  String.intercalate " " (toString this_nodes.length :: bctypes_vec.map toString)

/-- The constituent names emitted by the boundary-forcing blocks of
`impl fmt::Display for Bctides`: each name with its leading underscore
stripped. -/
def forcing_block_names (bfc : BoundaryForcingConfig) : List String :=
  (get_active_forcing_constituents_set bfc).map stripUnderscore

/-! ## Bctides and its builder: bctides.rs -/

/-- The date portion of `chrono::DateTime<Utc>` as observed by the engine. -/
structure Date where
  year : ℤ
  ordinal : ℕ
  hour : ℕ

def Clock.ofDate (d : Date) (durSeconds : ℤ) : Clock :=
  { year := d.year, ordinal := d.ordinal, hour := d.hour, durSeconds := durSeconds }

structure Bctides where
  start_date : Date
  run_duration : ℤ
  tidal_potential_cutoff_depth : ℝ
  boundary_forcing_config : BoundaryForcingConfig

structure BctidesBuilder where
  start_date : Option Date := none
  run_duration : Option ℤ := none
  tidal_potential_cutoff_depth : Option ℝ := none
  boundary_forcing_config : Option BoundaryForcingConfig := none

inductive BctidesBuilderError
  | UninitializedFieldError (field : String)
  | InvalidTidalPotentialCutoffDepth
deriving DecidableEq

noncomputable section

/-- `BctidesBuilder::validate_tidal_potential_cutoff_depth`. -/
def validate_tidal_potential_cutoff_depth
    (tidal_potential_cutoff_depth : ℝ) : Except BctidesBuilderError Unit :=
  if tidal_potential_cutoff_depth < 0 then
    Except.error BctidesBuilderError.InvalidTidalPotentialCutoffDepth
  else Except.ok ()

/-- `BctidesBuilder::build`: each field unwrapped with `ok_or_else` in
declaration order, then the cutoff depth validated, then the value built. -/
def bctides_build (b : BctidesBuilder) : Except BctidesBuilderError Bctides :=
  match b.start_date with
  | none => Except.error (BctidesBuilderError.UninitializedFieldError "start_date")
  | some sd =>
    match b.run_duration with
    | none => Except.error (BctidesBuilderError.UninitializedFieldError "run_duration")
    | some rd =>
      match b.tidal_potential_cutoff_depth with
      | none =>
        Except.error
          (BctidesBuilderError.UninitializedFieldError "tidal_potential_cutoff_depth")
      | some dp =>
        match b.boundary_forcing_config with
        | none =>
          Except.error
            (BctidesBuilderError.UninitializedFieldError "boundary_forcing_config")
        | some cfg =>
          match validate_tidal_potential_cutoff_depth dp with
          | Except.error e => Except.error e
          | Except.ok _ => Except.ok ⟨sd, rd, dp, cfg⟩

/-- Modelled from the spec and claim C10 (the reference behaviour the builder
is checked against): `build` succeeds exactly when every field is set and the
cutoff depth is nonnegative; the first unset field, in declaration order, is
named in the error. -/
def bctides_build_spec (b : BctidesBuilder) : Except BctidesBuilderError Bctides :=
  match b.start_date, b.run_duration, b.tidal_potential_cutoff_depth,
      b.boundary_forcing_config with
  | some sd, some rd, some dp, some cfg =>
    if 0 ≤ dp then Except.ok ⟨sd, rd, dp, cfg⟩
    else Except.error BctidesBuilderError.InvalidTidalPotentialCutoffDepth
  | none, _, _, _ =>
    Except.error (BctidesBuilderError.UninitializedFieldError "start_date")
  | some _, none, _, _ =>
    Except.error (BctidesBuilderError.UninitializedFieldError "run_duration")
  | some _, some _, none, _ =>
    Except.error
      (BctidesBuilderError.UninitializedFieldError "tidal_potential_cutoff_depth")
  | some _, some _, some _, none =>
    Except.error
      (BctidesBuilderError.UninitializedFieldError "boundary_forcing_config")

end

/-! ## Concrete inputs used by the claims -/

/-- 2012-10-29T00:00:00Z (a leap year, ordinal 303) with a 10-day run. -/
def ck20121029 : Clock :=
  { year := 2012, ordinal := dayOfYear true 10 29, hour := 0,
    durSeconds := 10 * 86400 }

def tpxoTides (c : ConstituentsConfig) : TidesConfig :=
  { constituents := c, database := TidalDatabase.TPXO }

/-- Elevation forcing configured for segment 0 only, while the mesh has two
open-boundary segments. -/
def bfcC2 : BoundaryForcingConfig :=
  { hgrid := { nodesIds := [[1, 2], [3, 4]] }
    elevation := some [(0, ElevationConfig.Tides (tpxoTides ConstituentsConfig.all))]
    velocity := none
    temperature := none
    salinity := none }

/-- Segment 0 carries a velocity-only tidal config enabling K1; segment 1 an
elevation-only tidal config enabling M2. -/
def bfcC3 : BoundaryForcingConfig :=
  { hgrid := { nodesIds := [[1], [2]] }
    elevation := some [(1, ElevationConfig.Tides (tpxoTides { M2 := true }))]
    velocity := some [(0, VelocityConfig.Tides (tpxoTides { K1 := true }))]
    temperature := none
    salinity := none }

/-- Segments 0, 1, 2 with elevation tidal configs enabling {M2, S2}, {K1},
{M2} respectively. -/
def bfcC7 : BoundaryForcingConfig :=
  { hgrid := { nodesIds := [[1], [2], [3]] }
    elevation := some
      [(0, ElevationConfig.Tides (tpxoTides { M2 := true, S2 := true })),
       (1, ElevationConfig.Tides (tpxoTides { K1 := true })),
       (2, ElevationConfig.Tides (tpxoTides { M2 := true }))]
    velocity := none
    temperature := none
    salinity := none }

def cfg2N2 : ConstituentsConfig :=
  ConstituentsConfig.empty.set_by_name "2N2" true

def bfc2N2 : BoundaryForcingConfig :=
  { hgrid := { nodesIds := [[1]] }
    elevation := some [(0, ElevationConfig.Tides (tpxoTides cfg2N2))]
    velocity := none
    temperature := none
    salinity := none }

/-- A value of `greenwich_factor` (an `Except`) whose payload, if any, lies in
the open interval (-360, 360). -/
def okInOpenRange : Except String ℝ → Prop
  | Except.ok v => -360 < v ∧ v < 360
  | Except.error _ => True

/-! ## Order specification helpers for the aggregated constituent sets -/

/-- The constituent names an elevation entry feeds into the forcing set. -/
def elevationTidesNames : ElevationConfig → List String
  | .TidesAndSpaceVaryingTimeSeries tides _ =>
    tides.constituents.get_active_forcing_constituents
  | .Tides config => config.constituents.get_active_forcing_constituents
  | _ => []

/-- The constituent names a velocity entry feeds into the forcing set. -/
def velocityTidesNames : VelocityConfig → List String
  | .TidesAndSpaceVaryingTimeSeries tides _ =>
    tides.constituents.get_active_forcing_constituents
  | .Tides config => config.constituents.get_active_forcing_constituents
  | _ => []

/-- All forcing constituents contributed by the elevation mapping, segments
in ascending key order, before deduplication. -/
def elevationConstituentsList (bfc : BoundaryForcingConfig) : List String :=
  match bfc.elevation with
  | some config => ((bmapValues config).map elevationTidesNames).flatten
  | none => []

/-- All forcing constituents contributed by the velocity mapping, segments in
ascending key order, before deduplication. -/
def velocityConstituentsList (bfc : BoundaryForcingConfig) : List String :=
  match bfc.velocity with
  | some config => ((bmapValues config).map velocityTidesNames).flatten
  | none => []

/-- First-seen-order deduplication of a name sequence. -/
def dedupKeepFirst (l : List String) : List String := l.foldl insertIfAbsent []

/-- The names with a closed-form branch in `nodal_factor` and
`greenwich_factor` (the same 38 names key the orbital-frequency table; the
species-type and potential-amplitude keys are a subset). -/
def handledConstituents : List String :=
  ["M2", "S2", "N2", "K1", "M4", "O1", "M6", "MK3", "S4", "MN4", "Nu2", "S6",
   "MU2", "2N2", "OO1", "lambda2", "S1", "M1", "J1", "Mm", "Ssa", "Sa", "Msf",
   "Mf", "RHO", "Q1", "T2", "R2", "2Q1", "P1", "2SM2", "M3", "L2", "2MK3",
   "K2", "M8", "MS4", "Z0"]

theorem rustRem_bounds (x y : ℝ) (hy : 0 < y) :
    -y < rustRem x y ∧ rustRem x y < y := by
  have hyne : y ≠ 0 := ne_of_gt hy
  have hx : x = y * (x / y) := by field_simp
  by_cases h : 0 ≤ x / y
  · have ht : truncTowardZero (x / y) = ⌊x / y⌋ := by simp [truncTowardZero, h]
    have hfr0 : 0 ≤ Int.fract (x / y) := Int.fract_nonneg _
    have hfr1 : Int.fract (x / y) < 1 := Int.fract_lt_one _
    have heq : rustRem x y = y * Int.fract (x / y) := by
      rw [rustRem, ht, Int.fract]
      linear_combination hx
    constructor
    · have h0 : 0 ≤ y * Int.fract (x / y) := mul_nonneg (le_of_lt hy) hfr0
      rw [heq]; linarith
    · have h1 : y * Int.fract (x / y) < y * 1 := by
        exact mul_lt_mul_of_pos_left hfr1 hy
      rw [heq]; linarith
  · have ht : truncTowardZero (x / y) = -⌊-(x / y)⌋ := by simp [truncTowardZero, h]
    have hfr0 : 0 ≤ Int.fract (-(x / y)) := Int.fract_nonneg _
    have hfr1 : Int.fract (-(x / y)) < 1 := Int.fract_lt_one _
    have heq : rustRem x y = -(y * Int.fract (-(x / y))) := by
      rw [rustRem, ht, Int.fract]
      push_cast
      linear_combination hx
    constructor
    · have h1 : y * Int.fract (-(x / y)) < y * 1 := mul_lt_mul_of_pos_left hfr1 hy
      rw [heq]; linarith
    · have h0 : 0 ≤ y * Int.fract (-(x / y)) := mul_nonneg (le_of_lt hy) hfr0
      rw [heq]; linarith

theorem rustRem_eq_self_of_neg (x y : ℝ) (hy : 0 < y) (h1 : -y < x) (h2 : x < 0) :
    rustRem x y = x := by
  have hq : x / y < 0 := div_neg_of_neg_of_pos h2 hy
  have hrw : -(x / y) = -x / y := (neg_div y x).symm
  have h0 : (0 : ℝ) ≤ -x / y := div_nonneg (by linarith) (le_of_lt hy)
  have hlt : -x / y < 1 := (div_lt_one hy).mpr (by linarith)
  have hfl : ⌊-(x / y)⌋ = 0 := by
    rw [hrw]
    exact Int.floor_eq_zero_iff.mpr ⟨h0, hlt⟩
  rw [rustRem, truncTowardZero, if_neg (not_le.mpr hq), hfl]
  push_cast
  ring

/-! ## Claim theorems -/

/-- C1, amended: for every constituent name handled by `greenwich_factor` and
every start date and run duration, the returned value lies in the open
interval (-360, 360); it lies in [0, 360) only when the unreduced linear
combination is nonnegative, because Rust `%` keeps the dividend's sign. -/
theorem greenwich_factor_in_open_interval (td : Tidefac) :
    okInOpenRange (greenwich_factor td) := by
  unfold greenwich_factor
  cases h : greenwich_raw td with
  | error e => exact trivial
  | ok r => exact rustRem_bounds r 360 (by norm_num)

/-- C1, counterexample to the claim as stated: for start date
2012-10-29T00:00:00Z with a 10-day run, `greenwich_factor` of "P1" returns a
negative value (about -307.73 degrees), outside [0, 360). -/
theorem greenwich_factor_P1_negative :
    greenwich_factor (tidefac ck20121029 "P1") =
      Except.ok (rustRem (DT ck20121029 - DH ck20121029 + 90) 360) ∧
    rustRem (DT ck20121029 - DH ck20121029 + 90) 360 < 0 := by
  have hdd : DDAY ck20121029 = 329 := by decide
  have hh : ck20121029.hour = 0 := rfl
  have hy : ck20121029.year = 2012 := rfl
  have hval : DT ck20121029 - DH ck20121029 + 90 =
      -(384662842399 / 1250000000 : ℝ) := by
    unfold DT DH get_solar_mean_longitude DYR
    rw [hdd, hh, hy]
    push_cast
    norm_num
  constructor
  · rfl
  · rw [hval,
      rustRem_eq_self_of_neg (-(384662842399 / 1250000000 : ℝ)) 360 (by norm_num)
        (by norm_num) (by norm_num)]
    norm_num

/-- C4: for every start date and run duration, `greenwich_factor` of "M2" is
the combination 2(DT - DS + DH) + 2(DXI - DNU) reduced by the Rust remainder
modulo 360, and of "K1" is DT + DH - 90 - DNUP reduced the same way, with
DT, DS, DH, DXI, DNU, DNUP the shared astronomical angle functions at the
same (start date, run duration). -/
theorem greenwich_factor_M2_K1_formulas (ck : Clock) :
    greenwich_factor (tidefac ck "M2") =
      Except.ok (rustRem (2 * (DT ck - DS ck + DH ck) + 2 * (DXI ck - DNU ck)) 360) ∧
    greenwich_factor (tidefac ck "K1") =
      Except.ok (rustRem (DT ck + DH ck - 90 - DNUP ck) 360) :=
  ⟨rfl, rfl⟩

theorem lookup_eq_none_of_keys_handled {β : Type} (l : List (String × β)) (c : String)
    (h : ∀ p ∈ l, p.1 ∈ handledConstituents) (hc : c ∉ handledConstituents) :
    List.lookup c l = none := by
  induction l with
  | nil => rfl
  | cons p t ih =>
    have hp : p.1 ∈ handledConstituents := h p (List.mem_cons_self p t)
    have hne : (c == p.1) = false := by
      refine beq_eq_false_iff_ne.mpr ?_
      rintro rfl
      exact hc hp
    rcases p with ⟨k, v⟩
    simp only [List.lookup, hne]
    exact ih (fun q hq => h q (List.mem_cons_of_mem _ hq))

/-- C5: for every constituent name outside the handled set (e.g. "XYZ") and
any start date and run duration, `nodal_factor` and `greenwich_factor` fail
with errors naming the constituent, and the species-type,
potential-amplitude and orbital-frequency lookups fail with errors naming
the constituent and the table queried; none returns a numeric value. -/
theorem unknown_constituent_errors (ck : Clock) (c : String)
    (hc : c ∉ handledConstituents) :
    nodal_factor ⟨ck, c⟩ = Except.error ("Unhandled constituent: " ++ c) ∧
    greenwich_factor ⟨ck, c⟩ = Except.error ("Unrecognized constituent " ++ c) ∧
    tidal_species_type ⟨ck, c⟩ =
      Except.error ("Failed to get tidal_species_type for constituent " ++ c) ∧
    tidal_potential_amplitude ⟨ck, c⟩ =
      Except.error ("Failed to get tidal_potential_amplitude for constituent " ++ c) ∧
    orbital_frequency ⟨ck, c⟩ =
      Except.error ("Failed to fetch orbital frequency for contituent: " ++ c) := by
  refine ⟨?_, ?_, ?_, ?_, ?_⟩
  · unfold nodal_factor
    split
    all_goals first
      | rfl
      | (rename_i h; exact absurd (by decide) ((show c = _ from h) ▸ hc))
  · unfold greenwich_factor greenwich_raw
    split
    all_goals first
      | rfl
      | (rename_i h; exact absurd (by decide) ((show c = _ from h) ▸ hc))
  · have hl : List.lookup c TIDAL_SPECIES_TYPE_MAP = none :=
      lookup_eq_none_of_keys_handled _ _ (by decide) hc
    unfold tidal_species_type
    rw [hl]
  · have hl : List.lookup c TIDAL_POTENTIAL_AMPLITUDES_MAP = none :=
      lookup_eq_none_of_keys_handled _ _ (by decide) hc
    unfold tidal_potential_amplitude
    rw [hl]
  · have hl : List.lookup c ORBITAL_FREQUENCIES = none :=
      lookup_eq_none_of_keys_handled _ _ (by decide) hc
    unfold orbital_frequency
    rw [hl]

/-- C5 witness: the theorem applied to the concrete name "XYZ". -/
theorem unknown_constituent_errors_witness :
    (("XYZ" : String) ∉ handledConstituents) ∧
    (nodal_factor ⟨ck20121029, "XYZ"⟩ =
        Except.error ("Unhandled constituent: " ++ "XYZ") ∧
      greenwich_factor ⟨ck20121029, "XYZ"⟩ =
        Except.error ("Unrecognized constituent " ++ "XYZ") ∧
      tidal_species_type ⟨ck20121029, "XYZ"⟩ =
        Except.error ("Failed to get tidal_species_type for constituent " ++ "XYZ") ∧
      tidal_potential_amplitude ⟨ck20121029, "XYZ"⟩ =
        Except.error
          ("Failed to get tidal_potential_amplitude for constituent " ++ "XYZ") ∧
      orbital_frequency ⟨ck20121029, "XYZ"⟩ =
        Except.error ("Failed to fetch orbital frequency for contituent: " ++ "XYZ")) :=
  ⟨by decide, unknown_constituent_errors ck20121029 "XYZ" (by decide)⟩

/-- C9: for start date 2012-10-29T00:00:00Z and a 10-day run, constituent
"M2" has species type 2, potential amplitude 0.242334 and orbital frequency
0.0001405189025086, exactly the reference-table values. -/
theorem m2_catalog_values :
    tidal_species_type (tidefac ck20121029 "M2") = Except.ok 2 ∧
    tidal_potential_amplitude (tidefac ck20121029 "M2") = Except.ok 0.242334 ∧
    orbital_frequency (tidefac ck20121029 "M2") = Except.ok 0.0001405189025086 :=
  ⟨rfl, rfl, rfl⟩

/-- C2: evaluation of `get_bctypes_vec` at the failing input.  With the
elevation mapping configured for segment 0 only, segment 0 gets code 3 in the
elevation slot followed by 0 0 0, but segment 1 gets only three codes: the
elevation slot is dropped entirely instead of carrying code 0, contradicting
the one-slot-per-variable contract. -/
theorem get_bctypes_vec_missing_key_drops_slot :
    get_bctypes_vec bfcC2 0 = [3, 0, 0, 0] ∧
    get_bctypes_vec bfcC2 1 = [0, 0, 0] ∧
    (get_bctypes_vec bfcC2 1).length ≠ 4 :=
  ⟨by decide, by decide, by decide⟩

/-- C7: with segments 0, 1, 2 enabling {M2, S2}, {K1}, {M2} through their
elevation tidal configs, the active-forcing set is exactly [M2, S2, K1]:
first-seen positions kept, the duplicate M2 not re-inserted. -/
theorem forcing_set_first_seen_order :
    get_active_forcing_constituents_set bfcC7 = ["M2", "S2", "K1"] := by decide

/-- C6: `all()`'s active-forcing set has the cardinality of the union of the
major and minor lists (8 + 7 = 15 for disjoint lists), and for `major()` the
active-potential set coincides with the active-forcing set. -/
theorem constituent_config_cardinalities :
    (ConstituentsConfig.all.get_active_forcing_constituents).length =
      ((MAJOR_CONSTITUENTS ++ MINOR_CONSTITUENTS).dedup).length ∧
    ((MAJOR_CONSTITUENTS ++ MINOR_CONSTITUENTS).dedup).length = 15 ∧
    ConstituentsConfig.major.get_active_potential_constituents =
      ConstituentsConfig.major.get_active_forcing_constituents :=
  ⟨by decide, by decide, by decide⟩

/-- C8: the digit-leading name "2N2" round-trips: `set_by_name` targets the
internal `_2N2` field, the forcing set carries the internal key "_2N2", and
both the serializer's name emission and the `tidefac` constructor strip the
leading underscore back to "2N2". -/
theorem digit_name_roundtrip :
    ConstituentsConfig.empty.set_by_name "2N2" true =
      { ConstituentsConfig.empty with _2N2 := true } ∧
    cfg2N2.get_active_forcing_constituents = ["_2N2"] ∧
    forcing_block_names bfc2N2 = ["2N2"] ∧
    (tidefac ck20121029 "_2N2").constituent = "2N2" :=
  ⟨by decide, by decide, by decide, by decide⟩

theorem foldl_insertIfAbsent_flatten (l : List (List String)) (s : List String) :
    l.flatten.foldl insertIfAbsent s =
      l.foldl (fun acc names => names.foldl insertIfAbsent acc) s := by
  induction l generalizing s with
  | nil => rfl
  | cons a t ih => simp [List.flatten, List.foldl_append, ih]

theorem elevationForcingContrib_eq (s : List String) (cfg : ElevationConfig) :
    elevationForcingContrib s cfg = (elevationTidesNames cfg).foldl insertIfAbsent s := by
  cases cfg <;> rfl

theorem velocityForcingContrib_eq (s : List String) (cfg : VelocityConfig) :
    velocityForcingContrib s cfg = (velocityTidesNames cfg).foldl insertIfAbsent s := by
  cases cfg <;> rfl

theorem foldl_elevationForcingContrib (m : List ElevationConfig) (s : List String) :
    m.foldl elevationForcingContrib s =
      ((m.map elevationTidesNames).flatten).foldl insertIfAbsent s := by
  have h : elevationForcingContrib =
      fun s cfg => (elevationTidesNames cfg).foldl insertIfAbsent s :=
    funext fun s => funext fun cfg => elevationForcingContrib_eq s cfg
  rw [h, foldl_insertIfAbsent_flatten, List.foldl_map]

theorem foldl_velocityForcingContrib (m : List VelocityConfig) (s : List String) :
    m.foldl velocityForcingContrib s =
      ((m.map velocityTidesNames).flatten).foldl insertIfAbsent s := by
  have h : velocityForcingContrib =
      fun s cfg => (velocityTidesNames cfg).foldl insertIfAbsent s :=
    funext fun s => funext fun cfg => velocityForcingContrib_eq s cfg
  rw [h, foldl_insertIfAbsent_flatten, List.foldl_map]

/-- C3, amended: the global forcing set is built variable-major, not
segment-major: the whole elevation mapping is traversed first (segments in
the mesh's ascending-key order), then the whole velocity mapping, each
entry's enabled constituents in the catalog's field order, deduplicated to
first-seen positions.  A segment's elevation constituents therefore precede
every velocity constituent, including those of earlier segments. -/
theorem forcing_set_variable_major (bfc : BoundaryForcingConfig) :
    get_active_forcing_constituents_set bfc =
      dedupKeepFirst (elevationConstituentsList bfc ++ velocityConstituentsList bfc) := by
  rcases bfc with ⟨hg, elev, vel, temp, sal⟩
  unfold get_active_forcing_constituents_set elevationConstituentsList
    velocityConstituentsList dedupKeepFirst
  cases elev <;> cases vel <;>
    simp [foldl_elevationForcingContrib, foldl_velocityForcingContrib,
      List.foldl_append]

/-- C3, counterexample to the claim as stated: with segment 0 enabling K1
through its velocity config and segment 1 enabling M2 through its elevation
config, the forcing set is [M2, K1] — segment 1's elevation constituent
precedes segment 0's velocity constituent, so insertion order is not
segment-major. -/
theorem forcing_set_not_segment_major :
    get_active_forcing_constituents_set bfcC3 = ["M2", "K1"] ∧
    ¬ List.indexOf "K1" (get_active_forcing_constituents_set bfcC3) <
        List.indexOf "M2" (get_active_forcing_constituents_set bfcC3) :=
  ⟨by decide, by decide⟩

/-- C10: `BctidesBuilder::build` succeeds exactly when all four fields are
set and the cutoff depth is nonnegative; the first unset field in
declaration order is reported in an `UninitializedFieldError` naming it, a
set but negative cutoff depth yields `InvalidTidalPotentialCutoffDepth`, and
no `Bctides` value is produced on the error paths. -/
theorem bctides_build_characterization (b : BctidesBuilder) :
    bctides_build b = bctides_build_spec b := by
  rcases b with ⟨osd, ord, odp, obfc⟩
  cases osd with
  | none => rfl
  | some sd =>
    cases ord with
    | none => rfl
    | some rd =>
      cases odp with
      | none => rfl
      | some dp =>
        cases obfc with
        | none => rfl
        | some cfg =>
          simp only [bctides_build, bctides_build_spec,
            validate_tidal_potential_cutoff_depth]
          by_cases h : dp < 0
          · rw [if_pos h, if_neg (not_le.mpr h)]
          · rw [if_neg h, if_pos (not_lt.mp h)]

end Schismrs
